import Mathlib

/-!
Verification development for the audio transcription service (main.py):
duration prober, segmenter, bounded-concurrency dispatcher and the
request orchestrator.  External effects (subprocess invocations, regex
matching, JSON parsing, the speech engine) are modelled as inputs: each
environment field records the observable outcome of one external call,
and the Lean functions reproduce the source's control flow over those
observations.  Machine floats are modelled as rationals.
-/

/-- Outcome of a Python float() conversion applied to a JSON field value:
either a rational result, a ValueError (e.g. the string is not numeric),
or a TypeError (the value is not a string or number). -/
inductive FloatConv
  | ok (q : ℚ)
  | vErr
  | tErr
deriving DecidableEq, Repr

/-- Observed content of the parsed ffprobe JSON document (method 3 of
get_audio_duration): the format-section duration field when present, and
the duration fields of the streams that carry one, in stream order. -/
structure JsonProbe where
  fmtDuration : Option FloatConv
  streamDurations : List FloatConv
deriving DecidableEq, Repr

/-- A successful regex match in the verbose ffmpeg pass (method 5):
either four groups (hours, minutes, seconds, subseconds, with the
character length of the subsecond group) or three groups. -/
inductive VMatch
  | g4 (h m s sub subLen : Nat)
  | g3 (h m s : Nat)
deriving DecidableEq, Repr

/-- Observed mediainfo invocation (method 6): its exit status, and
some n when the stripped stdout is a nonempty digit string of value n. -/
structure MediaInfoRes where
  rcZero : Bool
  msDigits : Option Nat
deriving DecidableEq, Repr

/-- Environment of one get_audio_duration call: the observable outcome of
every external invocation it can make.  mNOk records whether the N-th
checked ffprobe subprocess exited 0 (false = CalledProcessError).
fmtVal is the float() parse of the stripped method-1 stdout (none when
empty, the literal N/A, or unparseable); streamLines likewise per line of
the method-2 output; jsonData is none on a JSON decode error; dur4 holds
the groups of the Duration banner regex and times4 the time= progress
matches of the method-4 ffmpeg run; verbose holds, per pattern of the
fixed four-pattern list, the method-5 match outcome; mediainfo is none
when the mediainfo binary is absent. -/
structure ProbeEnv where
  m1Ok : Bool
  fmtVal : Option ℚ
  m2Ok : Bool
  streamLines : List (Option ℚ)
  m3Ok : Bool
  jsonData : Option JsonProbe
  dur4 : Option (Nat × Nat × Nat × Nat)
  times4 : List (Nat × Nat × ℚ)
  verbose : List (Option VMatch)
  mediainfo : Option MediaInfoRes
deriving DecidableEq, Repr

/-- The Python exceptions get_audio_duration can raise, by raise site:
the terminal cannot-determine ValueError, the ValueError wrapping a
CalledProcessError of an analysis subprocess, and the ValueError or
TypeError escaping the float() conversion in the JSON format branch. -/
inductive PyErr
  | durationUnknownErr
  | probeExecErr
  | floatConvValueErr
  | floatConvTypeErr
deriving DecidableEq, Repr

instance {ε α : Type} [DecidableEq ε] [DecidableEq α] : DecidableEq (Except ε α) :=
  fun x y =>
  match x, y with
  | .ok a, .ok b =>
    if h : a = b then isTrue (by rw [h]) else isFalse (fun hc => h (Except.ok.inj hc))
  | .error a, .error b =>
    if h : a = b then isTrue (by rw [h]) else isFalse (fun hc => h (Except.error.inj hc))
  | .ok _, .error _ => isFalse (fun hc => Except.noConfusion hc)
  | .error _, .ok _ => isFalse (fun hc => Except.noConfusion hc)

/-- Whether the exception is a Python ValueError: every raise site of
get_audio_duration except the TypeError from float(). -/
def PyErr.isValueError : PyErr → Bool
  | .floatConvTypeErr => false
  | _ => true

/-- Abbreviated str(e) for each exception, used in the orchestrator's
generic 500 detail text (the path interpolation of the source messages
is abstracted away). -/
def PyErr.descr : PyErr → String
  | .durationUnknownErr => "Cannot determine duration"
  | .probeExecErr => "Failed to analyze audio file"
  | .floatConvValueErr => "could not convert string to float"
  | .floatConvTypeErr => "float argument must be a string or a number"

/-- Method 1: the format=duration value, returned when parsed and > 0. -/
def method1 (e : ProbeEnv) : Option ℚ :=
  match e.fmtVal with
  | some q => if 0 < q then some q else none
  | none => none

/-- The method-2 loop over stream=duration lines: return the first line
that parses to a strictly positive value (src/main.py lines 139-146). -/
def firstPosLine : List (Option ℚ) → Option ℚ
  | [] => none
  | none :: rest => firstPosLine rest
  | some q :: rest => if 0 < q then some q else firstPosLine rest

/-- Method 2: first strictly positive per-stream duration. -/
def method2 (e : ProbeEnv) : Option ℚ := firstPosLine e.streamLines

/-- The JSON streams scan: first stream duration that converts to a
strictly positive float; conversion errors are caught and skipped. -/
def firstPosConv : List FloatConv → Option ℚ
  | [] => none
  | .ok q :: rest => if 0 < q then some q else firstPosConv rest
  | .vErr :: rest => firstPosConv rest
  | .tErr :: rest => firstPosConv rest

/-- Method 3, the structured JSON probe.  A decode error yields no value;
a conversion error on the format duration is NOT caught there (only
JSONDecodeError is) and escapes as an exception; stream conversion errors
are caught and skipped. -/
def method3 (e : ProbeEnv) : Except PyErr (Option ℚ) :=
  match e.jsonData with
  | none => .ok none
  | some j =>
    match j.fmtDuration with
    | some (.ok q) =>
      if 0 < q then .ok (some q) else .ok (firstPosConv j.streamDurations)
    | some .vErr => .error .floatConvValueErr
    | some .tErr => .error .floatConvTypeErr
    | none => .ok (firstPosConv j.streamDurations)

/-- Method 4: the Duration banner of the decode-to-null stderr when its
total is positive, otherwise the last time= progress stamp when positive. -/
def durBanner (h m s c : Nat) : ℚ := h * 3600 + m * 60 + s + (c : ℚ) / 100

/-- Total seconds of the last time= progress stamp, when positive
(the seconds group is parsed by float(), hence rational here). -/
def lastTimeVal (l : List (Nat × Nat × ℚ)) : Option ℚ :=
  match l.getLast? with
  | some (h, m, s) =>
    if 0 < (h * 3600 + m * 60 + s : ℚ) then some (h * 3600 + m * 60 + s : ℚ) else none
  | none => none

def method4 (e : ProbeEnv) : Option ℚ :=
  match e.dur4 with
  | some (h, m, s, c) =>
    if 0 < durBanner h m s c then some (durBanner h m s c) else lastTimeVal e.times4
  | none => lastTimeVal e.times4

/-- Value computed from a verbose-pass match: with four groups the
subsecond group is scaled by its character length (milliseconds when
three characters, centiseconds otherwise); with three groups no
subseconds. -/
def vmatchVal : VMatch → ℚ
  | .g4 h m s sub subLen =>
    h * 3600 + m * 60 + s + (sub : ℚ) / (if subLen == 3 then 1000 else 100)
  | .g3 h m s => h * 3600 + m * 60 + s

/-- Method 5: walk the fixed pattern list in order and return the first
match whose computed total is strictly positive. -/
def method5 : List (Option VMatch) → Option ℚ
  | [] => none
  | none :: rest => method5 rest
  | some v :: rest =>
    if 0 < vmatchVal v then some (vmatchVal v) else method5 rest

/-- Method 6: mediainfo milliseconds, when the tool is present, exited 0,
and printed a digit string with positive value. -/
def method6 (e : ProbeEnv) : Option ℚ :=
  match e.mediainfo with
  | none => none
  | some r =>
    if r.rcZero then
      match r.msDigits with
      | some n =>
        if 0 < ((n : ℚ) / 1000 : ℚ) then some ((n : ℚ) / 1000 : ℚ) else none
      | none => none
    else none

/-- The Duration Prober, get_audio_duration: the layered strategy chain.
A CalledProcessError from any checked ffprobe run is wrapped as a
ValueError (probeExecErr); an exception escaping the JSON format branch
is re-raised unchanged; when every strategy yields nothing the terminal
cannot-determine ValueError is raised. -/
def get_audio_duration (e : ProbeEnv) : Except PyErr ℚ :=
  if !e.m1Ok then .error .probeExecErr else
  match method1 e with
  | some d => .ok d
  | none =>
    if !e.m2Ok then .error .probeExecErr else
    match method2 e with
    | some d => .ok d
    | none =>
      if !e.m3Ok then .error .probeExecErr else
      match method3 e with
      | .error pe => .error pe
      | .ok (some d) => .ok d
      | .ok none =>
        match method4 e with
        | some d => .ok d
        | none =>
          match method5 e.verbose with
          | some d => .ok d
          | none =>
            match method6 e with
            | some d => .ok d
            | none => .error .durationUnknownErr

/-- Decidable form of "some strategy of the chain yields a finite,
strictly positive value" (the method functions only ever produce such
values, proved below). -/
def anyStrategyYields (e : ProbeEnv) : Bool :=
  (method1 e).isSome || (method2 e).isSome ||
  (match method3 e with | .ok (some _) => true | _ => false) ||
  (method4 e).isSome || (method5 e.verbose).isSome || (method6 e).isSome

/-- No analysis subprocess failed and the structured branch raised no
conversion error: the conditions under which the chain runs to its end. -/
def probeNoAbort (e : ProbeEnv) : Bool :=
  e.m1Ok && e.m2Ok && e.m3Ok &&
  (match method3 e with | .error _ => false | .ok _ => true)


/-- A probe environment in which methods 1 and 2 find nothing, the
structured JSON document carries a format duration that float() cannot
convert (a ValueError escapes), and every later strategy would also
find nothing. -/
def envC5cex : ProbeEnv :=
  { m1Ok := true, fmtVal := none, m2Ok := true, streamLines := [],
    m3Ok := true, jsonData := some ⟨some .vErr, []⟩, dur4 := none,
    times4 := [], verbose := [], mediainfo := none }

/-- An environment in which every external observation is empty: all
subprocesses run fine and no strategy finds any value. -/
def envAllNothing : ProbeEnv :=
  { m1Ok := true, fmtVal := none, m2Ok := true, streamLines := [],
    m3Ok := true, jsonData := none, dur4 := none,
    times4 := [], verbose := [], mediainfo := none }

/-- Modelled from the spec: "if multiple streams report durations, take
the maximum" — the maximum of the strictly positive reported stream
durations, stated only for comparison with the implemented first-match
scan of the second strategy. -/
def specMaxStreamDuration (lines : List (Option ℚ)) : Option ℚ :=
  lines.foldr (fun o acc =>
    match o, acc with
    | some q, some m => if 0 < q then some (max q m) else some m
    | some q, none => if 0 < q then some q else none
    | none, acc => acc) none

/-- A probe environment whose second strategy sees two streams reporting
durations 5 and 10 seconds. -/
def envC4 : ProbeEnv :=
  { m1Ok := true, fmtVal := none, m2Ok := true,
    streamLines := [some 5, some 10],
    m3Ok := true, jsonData := none, dur4 := none,
    times4 := [], verbose := [], mediainfo := none }

/-- An environment whose first strategy reports the given duration. -/
def envFmtDur (q : ℚ) : ProbeEnv :=
  { m1Ok := true, fmtVal := some q, m2Ok := true, streamLines := [],
    m3Ok := true, jsonData := none, dur4 := none,
    times4 := [], verbose := [], mediainfo := none }

/-- An environment whose very first ffprobe invocation exits nonzero
(a CalledProcessError), before any strategy can yield a value. -/
def envExecFail : ProbeEnv :=
  { m1Ok := false, fmtVal := none, m2Ok := true, streamLines := [],
    m3Ok := true, jsonData := none, dur4 := none,
    times4 := [], verbose := [], mediainfo := none }

/-- Python str.startswith over the character sequences. -/
def startswith (s p : String) : Bool := p.data.isPrefixOf s.data

/-- Python str.endswith over the character sequences. -/
def endswith (s p : String) : Bool := p.data.isSuffixOf s.data

/-- The filename filter of the segment enumeration:
file.startswith("segment_") and file.endswith(".webm"). -/
def segPred (f : String) : Bool := startswith f ("segment_") && endswith f (".webm")

/-- Lexicographic code-point comparison of character sequences, the
ordering Python uses on str: the first differing position decides, and a
proper prefix sorts first. -/
def listLeB : List Char → List Char → Bool
  | [], _ => true
  | _ :: _, [] => false
  | a :: as, b :: bs =>
    if a.toNat < b.toNat then true
    else if b.toNat < a.toNat then false
    else listLeB as bs

/-- Boolean ascending comparison used to model Python sorted(). -/
def strLeB (a b : String) : Bool := listLeB a.data b.data

/-- os.path.join(output_dir, file) for a directory without a trailing
separator. -/
def pathJoin (dir f : String) : String := dir ++ ("/") ++ f

/-- Outcome of the external splitting process: a nonzero exit
(CalledProcessError) or completion leaving the given directory listing
(os.listdir order is arbitrary; the source sorts it). -/
inductive SplitRun
  | procError
  | completed (listing : List String)
deriving DecidableEq, Repr

/-- The Segmenter, split_audio: runs the external splitter (outcome r),
then enumerates the output directory sorted, keeps the segment_*.webm
entries and returns their joined paths; a splitter failure raises
HTTPException 500 (modelled as the error case).  The input path and the
segment duration parameter only feed the external command line, whose
outcome r already abstracts them. -/
def split_audio (outputDir : String) (segmentDuration : ℚ) (r : SplitRun) :
    Except Unit (List String) :=
  match segmentDuration, r with
  | _, .procError => .error ()
  | _, .completed listing =>
    .ok (((listing.mergeSort strLeB).filter segPred).map (fun f => pathJoin outputDir f))

/-- The fixed-width zero-padded numeric suffix produced by the
segment_%03d.webm output pattern: three zero-padded decimal digits for
indices below 1000, the full decimal expansion beyond. -/
def pad3 (i : Nat) : List Char :=
  if i < 1000 then
    [Nat.digitChar (i / 100), Nat.digitChar (i / 10 % 10), Nat.digitChar (i % 10)]
  else Nat.toDigits 10 i

/-- The file name the splitter gives segment number i. -/
def segFileName (i : Nat) : String :=
  String.mk (("segment_").data ++ pad3 i ++ (".webm").data)

/-- The 503 detail of the engine-unavailable branch. -/
def msg503 : String :=
  "Transcription model not available. Service is starting up or model failed to load."

/-- The 500 detail of the uninitialized-semaphore branch. -/
def msgSemErr : String := "Service not properly initialized"

/-- The 500 detail of the splitting-failure branch (str(e) abstracted). -/
def splitErrMsg : String := "Error splitting audio"

/-- An HTTPException: status code and detail text. -/
inductive HErr
  | http (status : Nat) (detail : String)
deriving DecidableEq, Repr

/-- One request's world: the probe observations, the upload's name, the
process-wide engine and semaphore initialization state, the engine's
behaviour per audio path (exception text on failure), and the outcome of
the (at most one) external split invocation. -/
structure World where
  probe : ProbeEnv
  filename : String
  modelLoaded : Bool
  semInit : Bool
  engine : String → Except String String
  splitRun : SplitRun

/-- The Transcription Dispatcher, transcribe_with_gigaam: per-call model
check (503), per-call semaphore check (500), then the engine call, whose
exception is wrapped as a 500 transcription error.  The second component
counts engine invocations performed by the call. -/
def transcribe_with_gigaam (w : World) (path : String) : Except HErr String × Nat :=
  if w.modelLoaded = false then (.error (.http 503 msg503), 0)
  else if w.semInit = false then (.error (.http 500 msgSemErr), 0)
  else
    match w.engine path with
    | .ok t => (.ok t, 1)
    | .error e => (.error (.http 500 ("Transcription error: " ++ e)), 1)

/-- The duration field of the response JSON: the probed number, or one of
the two fallback tags "unknown" and "unknown (segmented)". -/
inductive DurVal
  | num (q : ℚ)
  | unknown
  | unknownSegmented
deriving DecidableEq, Repr

/-- The response body of a successful request. -/
structure Response where
  filename : String
  duration : DurVal
  transcription : String
deriving DecidableEq, Repr

/-- Request-level instrumentation: the paths passed to the dispatcher in
call order, and the segment-duration argument of each Segmenter
invocation in call order. -/
structure Trace where
  dispatched : List String
  segmenterArgs : List ℚ
deriving DecidableEq, Repr

/-- The sequential per-segment transcription loop: dispatch each segment
in list order, stopping at the first failure; returns the texts in order
and the paths actually dispatched. -/
def transcribeLoop (w : World) : List String → Except HErr (List String) × List String
  | [] => (.ok [], [])
  | s :: rest =>
    match transcribe_with_gigaam w s with
    | (.error e, _) => (.error e, [s])
    | (.ok t, _) =>
      match transcribeLoop w rest with
      | (.ok ts, ps) => (.ok (t :: ts), s :: ps)
      | (.error e, ps) => (.error e, s :: ps)

/-- The request's temporary upload location. -/
def inputPath : String := "tmp/input.webm"

/-- The request's segment output directory. -/
def segmentsDir : String := "tmp/segments"

/-- Maximum duration per chunk in seconds (MAX_DURATION = 20). -/
def MAX_DURATION : ℚ := 20

/-- Python " ".join. -/
def joinSpace (l : List String) : String := String.intercalate (" ") l

/-- The Request Orchestrator, the body of transcribe_audio after the
upload is saved: probe the duration; on success branch on MAX_DURATION
into direct transcription or segmentation; on a ValueError from the
prober attempt a direct transcription and, should it fail for any
reason, fall back to segmenting with the default segment length; any
non-ValueError probe exception becomes the generic processing error.
Returns the HTTP outcome together with the instrumentation trace. -/
def transcribe_audio (w : World) : Except HErr Response × Trace :=
  match get_audio_duration w.probe with
  | .ok d =>
    if d ≤ MAX_DURATION then
      match transcribe_with_gigaam w inputPath with
      | (.ok t, _) => (.ok ⟨w.filename, .num d, t⟩, ⟨[inputPath], []⟩)
      | (.error e, _) => (.error e, ⟨[inputPath], []⟩)
    else
      match split_audio segmentsDir MAX_DURATION w.splitRun with
      | .error _ => (.error (.http 500 splitErrMsg), ⟨[], [MAX_DURATION]⟩)
      | .ok segs =>
        match transcribeLoop w segs with
        | (.ok texts, ps) =>
          (.ok ⟨w.filename, .num d, joinSpace texts⟩, ⟨ps, [MAX_DURATION]⟩)
        | (.error e, ps) => (.error e, ⟨ps, [MAX_DURATION]⟩)
  | .error pe =>
    if pe.isValueError then
      match transcribe_with_gigaam w inputPath with
      | (.ok t, _) => (.ok ⟨w.filename, .unknown, t⟩, ⟨[inputPath], []⟩)
      | (.error _, _) =>
        match split_audio segmentsDir MAX_DURATION w.splitRun with
        | .error _ => (.error (.http 500 splitErrMsg), ⟨[inputPath], [MAX_DURATION]⟩)
        | .ok segs =>
          match transcribeLoop w segs with
          | (.ok texts, ps) =>
            (.ok ⟨w.filename, .unknownSegmented, joinSpace texts⟩,
              ⟨inputPath :: ps, [MAX_DURATION]⟩)
          | (.error e, ps) => (.error e, ⟨inputPath :: ps, [MAX_DURATION]⟩)
    else
      (.error (.http 500 ("Processing error: " ++ pe.descr)), ⟨[], []⟩)

/-- An engine that always transcribes to "hi". -/
def engineHi : String → Except String String := fun _ => .ok ("hi")

/-- A fully initialized world whose probe immediately fails with a
subprocess execution error and whose engine works. -/
def wC1 : World :=
  { probe := envExecFail, filename := "a.webm", modelLoaded := true,
    semInit := true, engine := engineHi, splitRun := .completed [] }

/-- A fully initialized world whose probe reports 10 seconds. -/
def wC2 : World :=
  { probe := envFmtDur 10, filename := "a.webm", modelLoaded := true,
    semInit := true, engine := engineHi, splitRun := .completed [] }

/-- A fully initialized world whose probe finds nothing at all. -/
def wC3 : World :=
  { probe := envAllNothing, filename := "a.webm", modelLoaded := true,
    semInit := true, engine := engineHi, splitRun := .completed [] }

/-- A world with the engine uninitialized and a 30-second probed
duration, whose splitter produces one segment. -/
def wC6 : World :=
  { probe := envFmtDur 30, filename := "a.webm", modelLoaded := false,
    semInit := true, engine := engineHi,
    splitRun := .completed [("segment_000.webm")] }

/-- A world with the engine uninitialized and a 10-second probed
duration. -/
def wC6short : World :=
  { probe := envFmtDur 10, filename := "a.webm", modelLoaded := false,
    semInit := true, engine := engineHi, splitRun := .completed [] }

/-- A world whose probe reports 30 seconds and whose splitter completes
leaving an empty directory: zero segments. -/
def wC8 : World :=
  { probe := envFmtDur 30, filename := "a.webm", modelLoaded := true,
    semInit := true, engine := engineHi, splitRun := .completed [] }

/-- A world with the engine loaded but the semaphore global still None. -/
def wC10 : World :=
  { probe := envFmtDur 10, filename := "a.webm", modelLoaded := true,
    semInit := false, engine := engineHi, splitRun := .completed [] }

theorem method1_pos {e : ProbeEnv} {d : ℚ} (h : method1 e = some d) : 0 < d := by
  unfold method1 at h
  split at h
  · split at h
    · exact Option.some.inj h ▸ (by assumption)
    · exact Option.noConfusion h
  · exact Option.noConfusion h

theorem firstPosLine_pos : ∀ {l : List (Option ℚ)} {d : ℚ},
    firstPosLine l = some d → 0 < d := by
  intro l
  induction l with
  | nil => intro d h; exact Option.noConfusion h
  | cons o rest ih =>
    intro d h
    match o with
    | none => exact ih h
    | some q =>
      unfold firstPosLine at h
      split at h
      · exact Option.some.inj h ▸ (by assumption)
      · exact ih h

theorem method2_pos {e : ProbeEnv} {d : ℚ} (h : method2 e = some d) : 0 < d :=
  firstPosLine_pos h

theorem firstPosConv_pos : ∀ {l : List FloatConv} {d : ℚ},
    firstPosConv l = some d → 0 < d := by
  intro l
  induction l with
  | nil => intro d h; exact Option.noConfusion h
  | cons o rest ih =>
    intro d h
    match o with
    | .vErr => exact ih h
    | .tErr => exact ih h
    | .ok q =>
      unfold firstPosConv at h
      split at h
      · exact Option.some.inj h ▸ (by assumption)
      · exact ih h

theorem method3_pos {e : ProbeEnv} {d : ℚ} (h : method3 e = .ok (some d)) : 0 < d := by
  unfold method3 at h
  split at h
  · exact Option.noConfusion (Except.ok.inj h)
  · split at h
    · split at h
      · exact Option.some.inj (Except.ok.inj h) ▸ (by assumption)
      · exact firstPosConv_pos (Except.ok.inj h)
    · exact Except.noConfusion h
    · exact Except.noConfusion h
    · exact firstPosConv_pos (Except.ok.inj h)

theorem lastTimeVal_pos {l : List (Nat × Nat × ℚ)} {d : ℚ}
    (h : lastTimeVal l = some d) : 0 < d := by
  unfold lastTimeVal at h
  split at h
  · split at h
    · exact Option.some.inj h ▸ (by assumption)
    · exact Option.noConfusion h
  · exact Option.noConfusion h

theorem method4_pos {e : ProbeEnv} {d : ℚ} (h : method4 e = some d) : 0 < d := by
  unfold method4 at h
  split at h
  · split at h
    · exact Option.some.inj h ▸ (by assumption)
    · exact lastTimeVal_pos h
  · exact lastTimeVal_pos h

theorem method5_pos : ∀ {l : List (Option VMatch)} {d : ℚ},
    method5 l = some d → 0 < d := by
  intro l
  induction l with
  | nil => intro d h; exact Option.noConfusion h
  | cons o rest ih =>
    intro d h
    match o with
    | none => exact ih h
    | some v =>
      unfold method5 at h
      split at h
      · exact Option.some.inj h ▸ (by assumption)
      · exact ih h

theorem method6_pos {e : ProbeEnv} {d : ℚ} (h : method6 e = some d) : 0 < d := by
  unfold method6 at h
  split at h
  · exact Option.noConfusion h
  · split at h
    · split at h
      · split at h
        · exact Option.some.inj h ▸ (by assumption)
        · exact Option.noConfusion h
      · exact Option.noConfusion h
    · exact Option.noConfusion h

theorem get_audio_duration_pos {e : ProbeEnv} {d : ℚ}
    (h : get_audio_duration e = .ok d) : 0 < d := by
  unfold get_audio_duration at h
  split at h
  · exact Except.noConfusion h
  · split at h
    next d1 h1 => exact Except.ok.inj h ▸ method1_pos h1
    next =>
      split at h
      · exact Except.noConfusion h
      · split at h
        next d2 h2 => exact Except.ok.inj h ▸ method2_pos h2
        next =>
          split at h
          · exact Except.noConfusion h
          · split at h
            next pe h3 => exact Except.noConfusion h
            next d3 h3 => exact Except.ok.inj h ▸ method3_pos h3
            next h3 =>
              split at h
              next d4 h4 => exact Except.ok.inj h ▸ method4_pos h4
              next =>
                split at h
                next d5 h5 => exact Except.ok.inj h ▸ method5_pos h5
                next =>
                  split at h
                  next d6 h6 => exact Except.ok.inj h ▸ method6_pos h6
                  next => exact Except.noConfusion h

theorem gad_unknown_iff (e : ProbeEnv) (hab : probeNoAbort e = true) :
    get_audio_duration e = .error .durationUnknownErr ↔ anyStrategyYields e = false := by
  simp only [probeNoAbort, Bool.and_eq_true] at hab
  obtain ⟨⟨⟨h1, h2⟩, h3⟩, hm3⟩ := hab
  cases hv1 : method1 e with
  | some d => simp [get_audio_duration, anyStrategyYields, h1, hv1]
  | none =>
    cases hv2 : method2 e with
    | some d => simp [get_audio_duration, anyStrategyYields, h1, h2, hv1, hv2]
    | none =>
      cases hv3 : method3 e with
      | error pe => rw [hv3] at hm3; simp at hm3
      | ok v =>
        cases v with
        | some d =>
          simp [get_audio_duration, anyStrategyYields, h1, h2, h3, hv1, hv2, hv3]
        | none =>
          cases hv4 : method4 e with
          | some d =>
            simp [get_audio_duration, anyStrategyYields, h1, h2, h3, hv1, hv2, hv3, hv4]
          | none =>
            cases hv5 : method5 e.verbose with
            | some d =>
              simp [get_audio_duration, anyStrategyYields, h1, h2, h3, hv1, hv2, hv3,
                hv4, hv5]
            | none =>
              cases hv6 : method6 e with
              | some d =>
                simp [get_audio_duration, anyStrategyYields, h1, h2, h3, hv1, hv2, hv3,
                  hv4, hv5, hv6]
              | none =>
                simp [get_audio_duration, anyStrategyYields, h1, h2, h3, hv1, hv2, hv3,
                  hv4, hv5, hv6]

/-- C5 counterexample: an input on which every strategy of the chain
yields no finite strictly positive value and yet the prober does not
fail with the terminal cannot-determine (DurationUnknown) error — the
ValueError escaping the float() conversion of the structured-output
container duration aborts the chain first, so the claimed equivalence
fails at this input. -/
theorem C5_counterexample :
    anyStrategyYields envC5cex = false ∧
    get_audio_duration envC5cex = .error .floatConvValueErr ∧
    get_audio_duration envC5cex ≠ .error .durationUnknownErr := by decide

/-- C5 (amended): the prober never returns a non-positive (or guessed)
duration — any returned value is strictly positive — and, provided no
analysis subprocess fails and the structured branch raises no conversion
error, it fails with the terminal DurationUnknown error exactly when
every strategy of the chain yields no finite strictly positive value. -/
theorem C5_prober_positive_and_unknown_iff (e : ProbeEnv) :
    (∀ d : ℚ, get_audio_duration e = .ok d → 0 < d) ∧
    (probeNoAbort e = true →
      (get_audio_duration e = .error .durationUnknownErr ↔ anyStrategyYields e = false)) :=
  ⟨fun _ h => get_audio_duration_pos h, fun hab => gad_unknown_iff e hab⟩

/-- C5 witness: on the all-empty environment the amended theorem yields
the terminal DurationUnknown failure. -/
theorem C5_witness : get_audio_duration envAllNothing = .error .durationUnknownErr :=
  ((C5_prober_positive_and_unknown_iff envAllNothing).2 (by decide)).mpr (by decide)

/-- C4: with two streams reporting durations 5 and 10, the implemented
second strategy returns the first strictly positive stream duration (5),
not the maximum (10) demanded by the spec and by the source comment
directly above the loop (src/main.py line 138). -/
theorem C4_stream_scan_returns_first_not_max :
    method2 envC4 = some 5 ∧
    get_audio_duration envC4 = .ok 5 ∧
    specMaxStreamDuration envC4.streamLines = some 10 := by decide

theorem joinSpace_nil : joinSpace [] = "" := rfl

theorem transcribeLoop_ok (w : World) (f : String → String) :
    ∀ segs : List String, (∀ s ∈ segs, (transcribe_with_gigaam w s).1 = .ok (f s)) →
    transcribeLoop w segs = (.ok (segs.map f), segs) := by
  intro segs
  induction segs with
  | nil => intro _; rfl
  | cons s rest ih =>
    intro h
    have hs := h s (List.mem_cons_self s rest)
    have hr := ih (fun x hx => h x (List.mem_cons_of_mem s hx))
    rcases hp : transcribe_with_gigaam w s with ⟨r, n⟩
    rw [hp] at hs
    obtain rfl : r = Except.ok (f s) := hs
    simp [transcribeLoop, hp, hr]

/-- C1 (amended): the direct-attempt fallback is taken exactly when the
probe failure is a Python ValueError — a category that contains both the
terminal DurationUnknown failure and the wrapped analysis-process
failure (probeExecErr), so the two categories are not distinguishable by
the caller and a process-execution failure does trigger the fallback;
only a non-ValueError probe exception propagates as a hard generic
processing failure, with no dispatcher call and no segmentation. -/
theorem C1_fallback_on_valueError (w : World) (pe : PyErr)
    (h : get_audio_duration w.probe = .error pe) :
    (pe.isValueError = true → (transcribe_audio w).2.dispatched.head? = some inputPath) ∧
    (pe.isValueError = false →
      transcribe_audio w =
        (.error (.http 500 ("Processing error: " ++ pe.descr)), ⟨[], []⟩)) := by
  constructor
  · intro hv
    simp only [transcribe_audio, h, hv, if_true]
    rcases hp : transcribe_with_gigaam w inputPath with ⟨r, n⟩
    cases r with
    | ok t => simp [hp]
    | error er =>
      cases hsplit : split_audio segmentsDir MAX_DURATION w.splitRun with
      | error u => simp [hp, hsplit]
      | ok segs =>
        rcases hloop : transcribeLoop w segs with ⟨res, ps⟩
        cases res with
        | ok texts => simp [hp, hsplit, hloop]
        | error er2 => simp [hp, hsplit, hloop]
  · intro hv
    simp [transcribe_audio, h, hv]

/-- C1 counterexample: a request whose very first probe subprocess fails
with a CalledProcessError (the ProbeExecutionError category) does not
fail hard: the orchestrator takes the direct-attempt fallback and
returns the engine's text tagged "unknown". -/
theorem C1_counterexample :
    get_audio_duration wC1.probe = .error .probeExecErr ∧
    transcribe_audio wC1 = (.ok ⟨("a.webm"), .unknown, ("hi")⟩, ⟨[inputPath], []⟩) := by
  constructor
  · decide
  · decide

/-- C1 witness: the fallback conclusion of the amended theorem at the
exec-failure world. -/
theorem C1_witness : (transcribe_audio wC1).2.dispatched.head? = some inputPath :=
  (C1_fallback_on_valueError wC1 .probeExecErr (by decide)).1 (by decide)

/-- C2: when the probe succeeds with duration d, the orchestrator
dispatches exactly once on the original file and never invokes the
segmenter if d ≤ MAX_DURATION, and otherwise invokes the segmenter once
(with MAX_DURATION) and dispatches exactly once per returned segment, in
order, provided every segment transcription succeeds. -/
theorem C2_probe_success_branching (w : World) (d : ℚ)
    (h : get_audio_duration w.probe = .ok d) :
    (d ≤ MAX_DURATION → (transcribe_audio w).2 = ⟨[inputPath], []⟩) ∧
    (MAX_DURATION < d → ∀ (segs : List String) (f : String → String),
      split_audio segmentsDir MAX_DURATION w.splitRun = .ok segs →
      (∀ s ∈ segs, (transcribe_with_gigaam w s).1 = .ok (f s)) →
      transcribe_audio w = (.ok ⟨w.filename, .num d, joinSpace (segs.map f)⟩,
        ⟨segs, [MAX_DURATION]⟩)) := by
  constructor
  · intro hd
    simp only [transcribe_audio, h, hd, if_true]
    rcases hp : transcribe_with_gigaam w inputPath with ⟨r, n⟩
    cases r with
    | ok t => simp [hp]
    | error er => simp [hp]
  · intro hd segs f hsplit hall
    have hd2 : ¬ d ≤ MAX_DURATION := not_le.mpr hd
    have hloop := transcribeLoop_ok w f segs hall
    simp [transcribe_audio, h, hd2, hsplit, hloop]

/-- C2 witness: at a 10-second probed world the short branch dispatches
once on the original upload with no segmenter invocation. -/
theorem C2_witness : (transcribe_audio wC2).2 = ⟨[inputPath], []⟩ :=
  (C2_probe_success_branching wC2 10 (by decide)).1 (by decide)

/-- C3: when the probe fails with the (ValueError) DurationUnknown
category, a successful direct dispatch returns its text tagged
"unknown"; a failed direct dispatch triggers segmentation with the
default segment length MAX_DURATION, every segment is transcribed in
strict index order, the texts are joined with a single space, and the
result is tagged "unknown (segmented)". -/
theorem C3_unknown_duration_fallback (w : World) (pe : PyErr)
    (h : get_audio_duration w.probe = .error pe) (hv : pe.isValueError = true) :
    (∀ t, (transcribe_with_gigaam w inputPath).1 = .ok t →
      transcribe_audio w = (.ok ⟨w.filename, .unknown, t⟩, ⟨[inputPath], []⟩)) ∧
    (∀ (er : HErr) (segs : List String) (f : String → String),
      (transcribe_with_gigaam w inputPath).1 = .error er →
      split_audio segmentsDir MAX_DURATION w.splitRun = .ok segs →
      (∀ s ∈ segs, (transcribe_with_gigaam w s).1 = .ok (f s)) →
      transcribe_audio w = (.ok ⟨w.filename, .unknownSegmented, joinSpace (segs.map f)⟩,
        ⟨inputPath :: segs, [MAX_DURATION]⟩)) := by
  constructor
  · intro t ht
    rcases hp : transcribe_with_gigaam w inputPath with ⟨r, n⟩
    rw [hp] at ht
    obtain rfl : r = Except.ok t := ht
    simp [transcribe_audio, h, hv, hp]
  · intro er segs f her hsplit hall
    rcases hp : transcribe_with_gigaam w inputPath with ⟨r, n⟩
    rw [hp] at her
    obtain rfl : r = Except.error er := her
    have hloop := transcribeLoop_ok w f segs hall
    simp [transcribe_audio, h, hv, hp, hsplit, hloop]

/-- C3 witness: at the nothing-found probe world with a working engine,
the direct attempt succeeds and is tagged "unknown". -/
theorem C3_witness :
    transcribe_audio wC3 = (.ok ⟨("a.webm"), .unknown, ("hi")⟩, ⟨[inputPath], []⟩) :=
  (C3_unknown_duration_fallback wC3 .durationUnknownErr (by decide) (by decide)).1
    ("hi") (by decide)

/-- C6 (amended): with the engine uninitialized every dispatcher call,
on any path, fails immediately with the 503 engine-unavailable error and
performs zero engine invocations (the check is per-call); and a request
whose probe succeeds with duration ≤ MAX_DURATION yields that 503 with
zero Segmenter invocations.  (For longer or unprobeable uploads the
segmenter can run before the 503 surfaces; see the counterexample.) -/
theorem C6_engine_unavailable_per_call (w : World) (path : String) (d : ℚ)
    (hm : w.modelLoaded = false) :
    transcribe_with_gigaam w path = (.error (.http 503 msg503), 0) ∧
    (get_audio_duration w.probe = .ok d → d ≤ MAX_DURATION →
      transcribe_audio w = (.error (.http 503 msg503), ⟨[inputPath], []⟩)) := by
  constructor
  · simp [transcribe_with_gigaam, hm]
  · intro h hd
    have htw : transcribe_with_gigaam w inputPath = (.error (.http 503 msg503), 0) := by
      simp [transcribe_with_gigaam, hm]
    simp [transcribe_audio, h, hd, htw]

/-- C6 counterexample: a valid upload probed at 30 seconds, processed
while the engine is uninitialized, still yields the 503
engine-unavailable failure but only after one Segmenter invocation —
refuting the claimed zero Segmenter invocations for every valid upload. -/
theorem C6_counterexample :
    wC6.modelLoaded = false ∧
    transcribe_audio wC6 =
      (.error (.http 503 msg503),
        ⟨[("tmp/segments/segment_000.webm")], [MAX_DURATION]⟩) := by
  refine ⟨rfl, ?_⟩
  have hpred : segPred ("segment_000.webm") = true := rfl
  have hsplit : split_audio segmentsDir MAX_DURATION wC6.splitRun =
      .ok [("tmp/segments/segment_000.webm")] := by
    show split_audio segmentsDir MAX_DURATION (.completed [("segment_000.webm")]) = _
    simp [split_audio, hpred]
    rfl
  simp only [transcribe_audio,
    show get_audio_duration wC6.probe = .ok 30 from by decide, hsplit]
  rw [if_neg (by decide : ¬ (30 : ℚ) ≤ MAX_DURATION)]
  decide

/-- C6 witness: the short-duration conclusion of the amended theorem at
a 10-second world with the engine uninitialized. -/
theorem C6_witness :
    transcribe_audio wC6short = (.error (.http 503 msg503), ⟨[inputPath], []⟩) :=
  (C6_engine_unavailable_per_call wC6short inputPath 10 (by decide)).2
    (by decide) (by decide)

/-- C8: when the splitter reports success with zero segments, the
per-segment loop performs zero dispatcher calls and the request returns
normally with the empty transcription rather than crashing. -/
theorem C8_zero_segments_handled (w : World) (d : ℚ)
    (h : get_audio_duration w.probe = .ok d) (hd : MAX_DURATION < d)
    (hs : split_audio segmentsDir MAX_DURATION w.splitRun = .ok []) :
    transcribe_audio w = (.ok ⟨w.filename, .num d, ("")⟩, ⟨[], [MAX_DURATION]⟩) := by
  have hd2 : ¬ d ≤ MAX_DURATION := not_le.mpr hd
  have hloop : transcribeLoop w [] = (.ok [], []) := rfl
  simp [transcribe_audio, h, hd2, hs, hloop, joinSpace_nil]

/-- C8 witness: a 30-second world whose split leaves no files returns
the empty transcription with no dispatcher call. -/
theorem C8_witness :
    transcribe_audio wC8 = (.ok ⟨("a.webm"), .num 30, ("")⟩, ⟨[], [MAX_DURATION]⟩) :=
  C8_zero_segments_handled wC8 30 (by decide) (by decide) (by simp [split_audio, wC8])

/-- C10: with the engine loaded but the semaphore global still None,
every dispatcher call fails with the generic 500
"Service not properly initialized" error before any engine invocation,
and that error is distinct from the 503 engine-unavailable error and
from every wrapped transcription error. -/
theorem C10_semaphore_uninitialized (w : World) (path : String)
    (hm : w.modelLoaded = true) (hs : w.semInit = false) :
    transcribe_with_gigaam w path = (.error (.http 500 msgSemErr), 0) ∧
    (HErr.http 500 msgSemErr ≠ HErr.http 503 msg503) ∧
    (∀ s : String, HErr.http 500 msgSemErr ≠ HErr.http 500 ("Transcription error: " ++ s)) := by
  refine ⟨?_, ?_, ?_⟩
  · simp [transcribe_with_gigaam, hm, hs]
  · intro hc
    injection hc with h1 h2
    exact absurd h1 (by decide)
  · intro s hc
    injection hc with h1 h2
    have h3 := congrArg String.data h2
    have h4 := congrArg List.head? h3
    rw [show ((msgSemErr).data).head? = some ('S') from rfl] at h4
    rw [show ((("Transcription error: " ++ s)).data).head? = some ('T') from rfl] at h4
    exact absurd (Option.some.inj h4) (by decide)

/-- C10 witness: the uninitialized-semaphore world fails with the
generic 500 and zero engine invocations. -/
theorem C10_witness :
    transcribe_with_gigaam wC10 inputPath = (.error (.http 500 msgSemErr), 0) :=
  (C10_semaphore_uninitialized wC10 inputPath (by decide) (by decide)).1

theorem charToNat_inj {a b : Char} (h : a.toNat = b.toNat) : a = b :=
  Char.eq_of_val_eq (UInt32.toNat.inj h)

theorem digitChar_toNat : ∀ a, a < 10 → (Nat.digitChar a).toNat = 48 + a := by decide

theorem listLeB_append_same (p a b : List Char) :
    listLeB (p ++ a) (p ++ b) = listLeB a b := by
  induction p with
  | nil => rfl
  | cons c cs ih => simp [listLeB, Nat.lt_irrefl, ih]

theorem listLeB_trans : ∀ (a b c : List Char),
    listLeB a b = true → listLeB b c = true → listLeB a c = true := by
  intro a
  induction a with
  | nil => intro b c h1 h2; rfl
  | cons x xs ih =>
    intro b c h1 h2
    cases b with
    | nil => simp [listLeB] at h1
    | cons y ys =>
      cases c with
      | nil => simp [listLeB] at h2
      | cons z zs =>
        simp only [listLeB] at h1 h2 ⊢
        split_ifs at h1 h2 ⊢ <;>
          first
          | rfl
          | (exact ih ys zs h1 h2)
          | (exact absurd h1 (by decide))
          | (exact absurd h2 (by decide))
          | (exfalso; omega)

theorem listLeB_total : ∀ (a b : List Char), (listLeB a b || listLeB b a) = true := by
  intro a
  induction a with
  | nil => intro b; rfl
  | cons x xs ih =>
    intro b
    cases b with
    | nil => rfl
    | cons y ys =>
      simp only [listLeB]
      split_ifs <;> first | rfl | (exact ih ys)

theorem listLeB_antisymm : ∀ {a b : List Char},
    listLeB a b = true → listLeB b a = true → a = b := by
  intro a
  induction a with
  | nil =>
    intro b h1 h2
    cases b with
    | nil => rfl
    | cons y ys => simp [listLeB] at h2
  | cons x xs ih =>
    intro b h1 h2
    cases b with
    | nil => simp [listLeB] at h1
    | cons y ys =>
      simp only [listLeB] at h1 h2
      split_ifs at h1 h2 <;>
        first
        | (exact absurd h1 (by decide))
        | (exact absurd h2 (by decide))
        | (exfalso; omega)
        | (have hxy : x = y := charToNat_inj (by omega)
           simp [hxy, ih h1 h2])

theorem strLeB_trans : ∀ (a b c : String),
    strLeB a b = true → strLeB b c = true → strLeB a c = true :=
  fun a b c h1 h2 => listLeB_trans a.data b.data c.data h1 h2

theorem strLeB_total : ∀ (a b : String), (strLeB a b || strLeB b a) = true :=
  fun a b => listLeB_total a.data b.data

theorem strLeB_antisymm {a b : String}
    (h1 : strLeB a b = true) (h2 : strLeB b a = true) : a = b :=
  String.toList_inj.mp (listLeB_antisymm h1 h2)

theorem isPrefixOf_append (p t : List Char) : p.isPrefixOf (p ++ t) = true := by
  induction p with
  | nil => simp
  | cons a as ih => simp [List.isPrefixOf, ih]

theorem isSuffixOf_append (s t : List Char) : s.isSuffixOf (t ++ s) = true := by
  simp [List.isSuffixOf, List.reverse_append, isPrefixOf_append]

theorem segPred_segFileName (i : Nat) : segPred (segFileName i) = true := by
  unfold segPred startswith endswith segFileName
  rw [Bool.and_eq_true]
  refine ⟨?_, ?_⟩
  · show (("segment_").data).isPrefixOf
      ((("segment_").data ++ pad3 i ++ (".webm").data)) = true
    rw [List.append_assoc]
    exact isPrefixOf_append _ _
  · show ((".webm").data).isSuffixOf
      ((("segment_").data ++ pad3 i ++ (".webm").data)) = true
    exact isSuffixOf_append _ _

theorem pad3_leB {i j : Nat} (hj : j < 1000) (hij : i < j) (t u : List Char) :
    listLeB (pad3 i ++ t) (pad3 j ++ u) = true := by
  have hi : i < 1000 := Nat.lt_trans hij hj
  have e1 := digitChar_toNat (i / 100) (by omega)
  have e2 := digitChar_toNat (i / 10 % 10) (by omega)
  have e3 := digitChar_toNat (i % 10) (by omega)
  have f1 := digitChar_toNat (j / 100) (by omega)
  have f2 := digitChar_toNat (j / 10 % 10) (by omega)
  have f3 := digitChar_toNat (j % 10) (by omega)
  unfold pad3
  rw [if_pos hi, if_pos hj]
  simp only [List.cons_append, List.nil_append, listLeB, e1, e2, e3, f1, f2, f3]
  split_ifs <;> first | rfl | (exfalso; omega)

theorem segFileName_leB {i j : Nat} (hj : j < 1000) (hij : i < j) :
    strLeB (segFileName i) (segFileName j) = true := by
  show listLeB (("segment_").data ++ pad3 i ++ (".webm").data)
      (("segment_").data ++ pad3 j ++ (".webm").data) = true
  rw [List.append_assoc, List.append_assoc, listLeB_append_same]
  exact pad3_leB hj hij _ _

theorem names_pairwise (n : Nat) (hn : n ≤ 1000) :
    List.Pairwise (fun a b => strLeB a b = true) ((List.range n).map segFileName) := by
  rw [List.pairwise_map]
  refine (List.pairwise_lt_range n).imp_of_mem ?_
  intro a b ha hb hr
  have hb2 := List.mem_range.mp hb
  exact segFileName_leB (by omega) hr

/-- C7 (amended): for any split producing at most 1000 segments — every
count for which the %03d suffix really is fixed-width — the Segmenter
returns the joined segment paths in numeric index order: the lexical
sort of the directory listing (any enumeration order) equals the numeric
segment-index order.  Beyond 1000 segments the suffix widens and the two
orders diverge (see the counterexample). -/
theorem C7_lexical_order_up_to_1000 (n : Nat) (hn : n ≤ 1000) (listing : List String)
    (hperm : listing.Perm ((List.range n).map segFileName)) :
    split_audio segmentsDir MAX_DURATION (.completed listing) =
      .ok (((List.range n).map segFileName).map (pathJoin segmentsDir)) := by
  have hsorted1 : (listing.mergeSort strLeB).Pairwise (fun a b => strLeB a b = true) :=
    List.sorted_mergeSort strLeB_trans strLeB_total listing
  have hperm2 : (listing.mergeSort strLeB).Perm ((List.range n).map segFileName) :=
    (List.mergeSort_perm listing strLeB).trans hperm
  haveI : IsAntisymm String (fun a b => strLeB a b = true) :=
    ⟨fun a b h1 h2 => strLeB_antisymm h1 h2⟩
  have heq : listing.mergeSort strLeB = (List.range n).map segFileName :=
    List.eq_of_perm_of_sorted hperm2 hsorted1 (names_pairwise n hn)
  have hfilter : ((List.range n).map segFileName).filter segPred =
      (List.range n).map segFileName :=
    List.filter_eq_self.mpr (fun a ha => by
      obtain ⟨i, hi, rfl⟩ := List.mem_map.mp ha
      exact segPred_segFileName i)
  simp [split_audio, heq, hfilter]

/-- C7 witness: two segments listed in reversed enumeration order come
back sorted into numeric order. -/
theorem C7_witness :
    split_audio segmentsDir MAX_DURATION (.completed [segFileName 1, segFileName 0]) =
      .ok (((List.range 2).map segFileName).map (pathJoin segmentsDir)) :=
  C7_lexical_order_up_to_1000 2 (by decide) [segFileName 1, segFileName 0] (by decide)

/-- C7 counterexample: at 1001 segments the %03d suffix of segment 1000
widens to four digits and sorts lexically before segment_999.webm, so
the Segmenter's output is NOT the numeric index order: the claim's
"for every segment count the splitter can produce" fails. -/
theorem C7_counterexample :
    split_audio segmentsDir MAX_DURATION
        (.completed ((List.range 1001).map segFileName)) ≠
      .ok (((List.range 1001).map segFileName).map (pathJoin segmentsDir)) := by
  intro hcontra
  have hinj : Function.Injective (pathJoin segmentsDir) := by
    intro a b hab
    have hd := congrArg String.data hab
    simp only [pathJoin, String.data_append] at hd
    exact String.toList_inj.mp (List.append_cancel_left hd)
  have h0 : Except.ok ((((((List.range 1001).map segFileName).mergeSort
        strLeB).filter segPred).map (pathJoin segmentsDir)) : List String) =
      Except.ok (((List.range 1001).map segFileName).map (pathJoin segmentsDir)) :=
    hcontra
  have h1 : ((((List.range 1001).map segFileName).mergeSort strLeB).filter segPred) =
      (List.range 1001).map segFileName :=
    List.map_injective_iff.mpr hinj (Except.ok.inj h0)
  have hsorted : ((List.range 1001).map segFileName).Pairwise
      (fun a b => strLeB a b = true) := by
    rw [← h1]
    exact (List.sorted_mergeSort strLeB_trans strLeB_total _).filter segPred
  rw [List.pairwise_map] at hsorted
  have hx := List.pairwise_iff_getElem.mp hsorted 999 1000
    (by simp) (by simp) (by omega)
  simp only [List.getElem_range] at hx
  exact absurd hx (by decide)
